import Mathlib

/-!
# Compression middleware (`http/go/nethttp/compression_handler.go`)

A shallow embedding of `CompressionHandler.Intercept` and `compressReqBody`.

* The request is a value that is threaded through the calls: every assignment the Go
  code makes through the `*http.Request` pointer becomes a record update, and
  `pipeline.Next`, which receives the same pointer, returns the request as it left it.
* `pipeline.Next` and the gzip writer of `compress/gzip` are collaborators that live
  outside the file; they are parameters of the embedding.
* Every run of `Intercept` records the `pipeline.Next` calls it makes, in order, with
  the arguments passed and the results received.
-/

namespace Kiota.Nethttp

/-! ## Data model -/

/-- Go `error` values; a nil error is `none : Option Error`. -/
abbrev Error := String

/-- Go type `abstractions.RequestOptionKey`: a struct with the one string field `Key`. -/
structure RequestOptionKey where
  Key : String
  deriving DecidableEq, Repr

/-- Go variable `compressKey`: the `RequestOptionKey` whose `Key` is `CompressionHandler`. -/
def compressKey : RequestOptionKey := { Key := "CompressionHandler" }

/-- Go type `CompressionOptions`: a struct with the one field `enableCompression bool`. -/
structure CompressionOptions where
  enableCompression : Bool
  deriving DecidableEq, Repr

/-- Go type `CompressionHandler`: a struct with the one field `options CompressionOptions`,
held by value; the handler itself is the non-nil pointer the constructors return. -/
structure CompressionHandler where
  options : CompressionOptions
  deriving DecidableEq, Repr

/-- Go `func NewCompressionOptions(enableCompression bool) CompressionOptions` -/
def NewCompressionOptions (enableCompression : Bool) : CompressionOptions :=
  { enableCompression := enableCompression }

/-- Go `func NewCompressionHandlerWithOptions(option CompressionOptions) *CompressionHandler` -/
def NewCompressionHandlerWithOptions (option : CompressionOptions) : CompressionHandler :=
  { options := option }

/-- Go `func NewCompressionHandler() *CompressionHandler` -/
def NewCompressionHandler : CompressionHandler :=
  let options := NewCompressionOptions true
  NewCompressionHandlerWithOptions options

/-- Go `func (o CompressionOptions) GetKey() abstractions.RequestOptionKey` -/
def CompressionOptions.GetKey (_o : CompressionOptions) : RequestOptionKey := compressKey

/-- Go `func (o CompressionOptions) ShouldCompress() bool` -/
def CompressionOptions.ShouldCompress (o : CompressionOptions) : Bool := o.enableCompression

/-- A value of interface type `compression` (`GetKey` and `ShouldCompress`). It is a
`CompressionOptions` of this package, or a nil `*CompressionOptions` (both methods have
value receivers, so they are in the method set of the pointer type and the type assertion
succeeds on the nil pointer), or a value of some other type with those two methods, of
which only the behaviour of `ShouldCompress()` matters here: the answer it returns, or
`none` when the call panics. -/
inductive compression where
  | ofOptions (o : CompressionOptions)
  | ofNilOptions
  | ofCustom (shouldCompress : Option Bool)
  deriving DecidableEq, Repr

/-- Dynamic dispatch of `ShouldCompress()` on an interface value: `some` answer when the
call returns, `none` when it panics. On a nil `*CompressionOptions` the value receiver
dereferences the nil pointer, which panics. -/
def compression.ShouldCompress : compression → Option Bool
  | .ofOptions o => some o.ShouldCompress
  | .ofNilOptions => none
  | .ofCustom answer => answer

/-- What `req.Context().Value(key)` can hold when it is not nil: a value whose dynamic
type implements `compression`, or a value of a type that does not. -/
inductive ContextValue where
  | implementing (v : compression)
  | unrelated
  deriving DecidableEq, Repr

/-- The type assertion `v.(compression)` on the result of `Context.Value`: it succeeds
exactly when the value is not nil and its dynamic type implements the interface. -/
def assertCompression : Option ContextValue → Option compression
  | some (.implementing v) => some v
  | some .unrelated => none
  | none => none

/-- Go type `http.Header`, a `map[string][]string`: `none` is an absent key. The map itself is
never nil on a request that reaches a round tripper. -/
abbrev Header := String → Option (List String)

/-- Go `h.Set(key, value)` for a key already in canonical MIME form (as `"Content-Encoding"`
is): the entry becomes the one-element slice. -/
def Header.Set (h : Header) (key value : String) : Header :=
  fun k => if k = key then some [value] else h k

/-- The builtin `delete(h, key)` on the header map. -/
def Header.Del (h : Header) (key : String) : Header :=
  fun k => if k = key then none else h k

/-- Go `h.Get(key)`: the first value stored under the key, `""` when there is none. -/
def Header.Get (h : Header) (key : String) : String :=
  match h key with
  | some (v :: _) => v
  | _ => ""

/-- An `io.ReadCloser` seen as a stream: the bytes it still delivers, and the error it
ends with (`none` when it ends with `io.EOF`). -/
structure ReadCloser where
  pending : List UInt8
  failure : Option Error
  deriving DecidableEq, Repr

/-- Go `ioutil.ReadAll(r)`: reads until EOF or an error; returns the reader as the reads
leave it (what it delivered is consumed), the bytes read, and the error (nil on EOF). -/
def ReadAll (r : ReadCloser) : ReadCloser × List UInt8 × Option Error :=
  ({ r with pending := [] }, r.pending, r.failure)

/-- Go `ioutil.NopCloser(&buffer)` / `ioutil.NopCloser(bytes.NewBuffer(b))`: a reader over
the unread bytes of an in-memory buffer; it ends with `io.EOF`. -/
def NopCloser (buffer : List UInt8) : ReadCloser :=
  { pending := buffer, failure := none }

/-- The fields of `*http.Request` the middleware can observe, plus method and URL, which
it never touches. `Body = none` is a nil body; `ctx` is `req.Context().Value`. -/
structure Request where
  Method : String
  URL : String
  Header : Header
  Body : Option ReadCloser
  ContentLength : Int
  ctx : RequestOptionKey → Option ContextValue

/-- The fields of `*http.Response` that matter here. -/
structure Response where
  StatusCode : Int
  Body : List UInt8
  deriving DecidableEq, Repr

/-- What one `pipeline.Next(req, middlewareIndex)` call leaves behind: the state of the
pipeline, the request (downstream stages hold the same pointer and may change it or read
its body), and the returned pair, either component of which may be nil. -/
structure NextResult (σ : Type) where
  state : σ
  req : Request
  resp : Option Response
  err : Option Error

/-- The `Pipeline` interface, with the state of the downstream chain made explicit. -/
structure Pipeline (σ : Type) where
  Next : σ → Request → Int → NextResult σ

/-- One recorded `pipeline.Next` call: arguments and returned pair. -/
structure Call where
  req : Request
  middlewareIndex : Int
  resp : Option Response
  err : Option Error

/-- How a Go call ends: it returns its `(*http.Response, error)` pair, or it panics
(here: `reqOption.ShouldCompress()` on an option whose method panics, or
`resp.StatusCode` on a nil `resp`). -/
inductive Outcome where
  | returned (resp : Option Response) (err : Option Error)
  | panicked
  deriving DecidableEq, Repr

/-- A run of `Intercept`: the `pipeline.Next` calls made, the request and the pipeline
state when the run ends, and how it ended. -/
structure Run (σ : Type) where
  calls : List Call
  req : Request
  state : σ
  outcome : Outcome

/-- The part of `compress/gzip` that `compressReqBody` uses, for a writer on top of a
`bytes.Buffer`: `NewWriter` is the fresh writer (nothing is written to the buffer yet),
`Write` and `Close` return the bytes they append to the buffer, or an error. -/
structure GzipWriter (W : Type) where
  NewWriter : W
  Write : W → List UInt8 → Except Error (W × List UInt8)
  Close : W → Except Error (List UInt8)

/-! ## The code -/

/-- Go `func compressReqBody(reqBody []byte) (io.ReadCloser, int, error)`; an error return
`(nil, 0, err)` is `Except.error err`. -/
def compressReqBody {W : Type} (gz : GzipWriter W) (reqBody : List UInt8) :
    Except Error (ReadCloser × Nat) :=
  let buffer : List UInt8 := []
  let gzipWriter := gz.NewWriter
  match gz.Write gzipWriter reqBody with
  | .error err => .error err
  | .ok (gzipWriter, written) =>
    let buffer := buffer ++ written
    match gz.Close gzipWriter with
    | .error err => .error err
    | .ok flushed =>
      let buffer := buffer ++ flushed
      .ok (NopCloser buffer, buffer.length)

/-- Lines 60-63 of `Intercept`: the option found in the request context under
`compressKey` when the type assertion succeeds, the options of the handler otherwise. -/
def resolveOption (c : CompressionHandler) (req : Request) : compression :=
  match assertCompression (req.ctx compressKey) with
  | some reqOption => reqOption
  | none => .ofOptions c.options

/-- The request as lines 80-82 leave it. -/
def compressedRequest (req : Request) (compressedBody : ReadCloser) (size : Nat) : Request :=
  { req with
    Header := req.Header.Set "Content-Encoding" "gzip"
    Body := some compressedBody
    ContentLength := Int.ofNat size }

/-- The request as lines 92-94 leave it. -/
def restoredRequest (req : Request) (unCompressedBody : List UInt8)
    (unCompressedContentLength : Int) : Request :=
  { req with
    Header := req.Header.Del "Content-Encoding"
    Body := some (NopCloser unCompressedBody)
    ContentLength := unCompressedContentLength }

/-- Go `func (c *CompressionHandler) Intercept(pipeline Pipeline, middlewareIndex int,
req *http.Request) (*http.Response, error)`, started with the pipeline in state `s`. -/
def Intercept {W σ : Type} (gz : GzipWriter W) (c : CompressionHandler)
    (pipeline : Pipeline σ) (s : σ) (middlewareIndex : Int) (req : Request) : Run σ :=
  let reqOption := resolveOption c req
  -- line 65, `!reqOption.ShouldCompress() || req.Body == nil`: the method call comes first
  match reqOption.ShouldCompress with
  | none => { calls := [], req := req, state := s, outcome := .panicked }
  | some shouldCompress =>
    if !shouldCompress then
      let r := pipeline.Next s req middlewareIndex
      { calls := [⟨req, middlewareIndex, r.resp, r.err⟩], req := r.req, state := r.state,
        outcome := .returned r.resp r.err }
    else
      match req.Body with
      | none =>
        let r := pipeline.Next s req middlewareIndex
        { calls := [⟨req, middlewareIndex, r.resp, r.err⟩], req := r.req, state := r.state,
          outcome := .returned r.resp r.err }
      | some body =>
        let (body, unCompressedBody, err) := ReadAll body
        -- `req.Body` is still the same reader, in the state the reads left it in
        let req : Request := { req with Body := some body }
        let unCompressedContentLength := req.ContentLength
        match err with
        | some err =>
          { calls := [], req := req, state := s, outcome := .returned none (some err) }
        | none =>
          match compressReqBody gz unCompressedBody with
          | .error err =>
            { calls := [], req := req, state := s, outcome := .returned none (some err) }
          | .ok (compressedBody, size) =>
            let req := compressedRequest req compressedBody size
            -- Sending request with compressed body
            let r := pipeline.Next s req middlewareIndex
            let first : Call := ⟨req, middlewareIndex, r.resp, r.err⟩
            match r.err with
            | some err =>
              { calls := [first], req := r.req, state := r.state,
                outcome := .returned none (some err) }
            | none =>
              match r.resp with
              | none =>
                { calls := [first], req := r.req, state := r.state, outcome := .panicked }
              | some resp =>
                -- If response has status 415 retry request with uncompressed body
                if resp.StatusCode = 415 then
                  let req := restoredRequest r.req unCompressedBody unCompressedContentLength
                  let r2 := pipeline.Next r.state req middlewareIndex
                  { calls := [first, ⟨req, middlewareIndex, r2.resp, r2.err⟩], req := r2.req,
                    state := r2.state, outcome := .returned r2.resp r2.err }
                else
                  { calls := [first], req := r.req, state := r.state,
                    outcome := .returned (some resp) none }

/-- The run that forwards the request as it is and returns what comes back. -/
def forwardRun {σ : Type} (pipeline : Pipeline σ) (s : σ) (middlewareIndex : Int) (req : Request) :
    Run σ :=
  { calls := [⟨req, middlewareIndex, (pipeline.Next s req middlewareIndex).resp,
      (pipeline.Next s req middlewareIndex).err⟩],
    req := (pipeline.Next s req middlewareIndex).req,
    state := (pipeline.Next s req middlewareIndex).state,
    outcome := .returned (pipeline.Next s req middlewareIndex).resp
      (pipeline.Next s req middlewareIndex).err }

/-- The first `pipeline.Next` call of the compression path: the request carries the
compressed body `z` of `size` bytes. -/
def firstNext {σ : Type} (pipeline : Pipeline σ) (s : σ) (middlewareIndex : Int)
    (req : Request) (z : ReadCloser) (size : Nat) : NextResult σ :=
  pipeline.Next s (compressedRequest req z size) middlewareIndex

/-- The request of the retry: the request as the first call left it, restored from the
bytes read from body `b` and the content-length of `req`, the request on entry. -/
def secondRequest {σ : Type} (pipeline : Pipeline σ) (s : σ) (middlewareIndex : Int)
    (req : Request) (b z : ReadCloser) (size : Nat) : Request :=
  restoredRequest (firstNext pipeline s middlewareIndex req z size).req b.pending
    req.ContentLength

/-- The second `pipeline.Next` call, made from the state the first call left. -/
def secondNext {σ : Type} (pipeline : Pipeline σ) (s : σ) (middlewareIndex : Int)
    (req : Request) (b z : ReadCloser) (size : Nat) : NextResult σ :=
  pipeline.Next (firstNext pipeline s middlewareIndex req z size).state
    (secondRequest pipeline s middlewareIndex req b z size) middlewareIndex

/-- The run with exactly the two calls `firstNext` and `secondNext`, returning the pair
of the second. -/
def retryRun {σ : Type} (pipeline : Pipeline σ) (s : σ) (middlewareIndex : Int)
    (req : Request) (b z : ReadCloser) (size : Nat) : Run σ :=
  { calls :=
      [⟨compressedRequest req z size, middlewareIndex,
          (firstNext pipeline s middlewareIndex req z size).resp,
          (firstNext pipeline s middlewareIndex req z size).err⟩,
        ⟨secondRequest pipeline s middlewareIndex req b z size, middlewareIndex,
          (secondNext pipeline s middlewareIndex req b z size).resp,
          (secondNext pipeline s middlewareIndex req b z size).err⟩],
    req := (secondNext pipeline s middlewareIndex req b z size).req,
    state := (secondNext pipeline s middlewareIndex req b z size).state,
    outcome := .returned (secondNext pipeline s middlewareIndex req b z size).resp
      (secondNext pipeline s middlewareIndex req b z size).err }

/-! ## The contract of the gzip collaborator, and concrete collaborators -/

/-- What `compress/gzip` promises for the two calls `compressReqBody` makes on a fresh
writer over an in-memory buffer: `Write` and `Close` succeed, and the bytes they put in
the buffer are a gzip stream that `gunzip` (gzip decompression) turns back into the
bytes written. -/
def GzipContract {W : Type} (gz : GzipWriter W) (gunzip : List UInt8 → Option (List UInt8)) :
    Prop :=
  ∀ p : List UInt8, ∃ w written flushed,
    gz.Write gz.NewWriter p = .ok (w, written) ∧ gz.Close w = .ok flushed ∧
      gunzip (written ++ flushed) = some p

/-- The two magic bytes a gzip stream starts with. -/
def gzipMagic : List UInt8 := [0x1f, 0x8b]

/-- A small gzip stand-in for concrete runs: the magic bytes, written lazily by the
first `Write` (or by `Close`), followed by the payload stored as it is. The writer state
records whether the magic bytes are out. -/
def storedGzip : GzipWriter Bool where
  NewWriter := false
  Write := fun wroteHeader p => .ok (true, (if wroteHeader then [] else gzipMagic) ++ p)
  Close := fun wroteHeader => .ok (if wroteHeader then [] else gzipMagic)

/-- Decoder for `storedGzip`. -/
def storedGunzip (z : List UInt8) : Option (List UInt8) :=
  if z.take 2 = gzipMagic then some (z.drop 2) else none

/-- A gzip writer whose underlying writer rejects every `Write` with error `e`. -/
def brokenGzip (e : Error) : GzipWriter Unit where
  NewWriter := ()
  Write := fun _ _ => .error e
  Close := fun _ => .ok []

/-- A downstream chain that answers from a script, one entry per call, and leaves the
request as it received it; with the script used up it reports an error. -/
def scripted : Pipeline (List (Option Response × Option Error)) where
  Next := fun script req _ =>
    match script with
    | [] => { state := [], req := req, resp := none, err := some "script exhausted" }
    | (resp, err) :: rest => { state := rest, req := req, resp := resp, err := err }

/-- A response with the given status and an empty body. -/
def status (code : Int) : Option Response × Option Error := (some ⟨code, []⟩, none)

/-- The bytes of hello world. -/
def helloWorld : List UInt8 := [104, 101, 108, 108, 111, 32, 119, 111, 114, 108, 100]

/-- A POST request with the given body, content-length, headers and per-request option. -/
def post (body : Option ReadCloser) (contentLength : Int) (header : Header)
    (option : Option ContextValue) : Request :=
  { Method := "POST", URL := "https://example.org/items", Header := header, Body := body,
    ContentLength := contentLength,
    ctx := fun k => if k = compressKey then option else none }

/-- The empty header map. -/
def noHeaders : Header := fun _ => none

/-- The bytes of hello world posted with their length declared and no per-request option. -/
def helloRequest : Request := post (some (NopCloser helloWorld)) 11 noHeaders none

/-- The same request carrying a per-request `CompressionOptions` with the given flag. -/
def helloRequestWith (enableCompression : Bool) : Request :=
  post (some (NopCloser helloWorld)) 11 noHeaders
    (some (.implementing (.ofOptions (NewCompressionOptions enableCompression))))

/-- A request without a body. -/
def bodylessRequest : Request := post none 0 noHeaders none

/-- A request without a body that carries a nil `*CompressionOptions` as its per-request
option. -/
def nilOptionRequest : Request :=
  post none 0 noHeaders (some (.implementing .ofNilOptions))

/-- The bytes of hello world posted with content-length `-1` (length unknown). -/
def unknownLengthRequest : Request := post (some (NopCloser helloWorld)) (-1) noHeaders none

/-- The bytes of hello world posted with a `Content-Encoding: deflate` header already set. -/
def encodedRequest : Request :=
  post (some (NopCloser helloWorld)) 11 (noHeaders.Set "Content-Encoding" "deflate") none

/-- A request whose body delivers the two bytes of hi and then fails with an I/O error. -/
def failingRequest : Request :=
  post (some { pending := [104, 105], failure := some "connection reset" }) 2 noHeaders none

/-! ## The branches of `Intercept` -/

section Branches

variable {W σ : Type} (gz : GzipWriter W) (c : CompressionHandler) (pipeline : Pipeline σ)
  (s : σ) (middlewareIndex : Int) (req : Request)

theorem intercept_option_panic (hopt : (resolveOption c req).ShouldCompress = none) :
    Intercept gz c pipeline s middlewareIndex req =
      { calls := [], req := req, state := s, outcome := .panicked } := by
  simp [Intercept, hopt]

theorem intercept_nil_body {shouldCompress : Bool}
    (hopt : (resolveOption c req).ShouldCompress = some shouldCompress)
    (hbody : req.Body = none) :
    Intercept gz c pipeline s middlewareIndex req = forwardRun pipeline s middlewareIndex req := by
  cases shouldCompress <;> simp [Intercept, forwardRun, hopt, hbody]

theorem intercept_disabled (hopt : (resolveOption c req).ShouldCompress = some false) :
    Intercept gz c pipeline s middlewareIndex req = forwardRun pipeline s middlewareIndex req := by
  simp [Intercept, forwardRun, hopt]

theorem intercept_read_error {b : ReadCloser} {e : Error}
    (hopt : (resolveOption c req).ShouldCompress = some true) (hbody : req.Body = some b)
    (hread : b.failure = some e) :
    Intercept gz c pipeline s middlewareIndex req =
      { calls := [], req := { req with Body := some (ReadAll b).1 }, state := s,
        outcome := .returned none (some e) } := by
  simp [Intercept, hbody, hopt, ReadAll, hread]

theorem intercept_compress_error {b : ReadCloser} {e : Error}
    (hopt : (resolveOption c req).ShouldCompress = some true) (hbody : req.Body = some b)
    (hread : b.failure = none) (hz : compressReqBody gz b.pending = .error e) :
    Intercept gz c pipeline s middlewareIndex req =
      { calls := [], req := { req with Body := some (ReadAll b).1 }, state := s,
        outcome := .returned none (some e) } := by
  simp [Intercept, hbody, hopt, ReadAll, hread, hz]

theorem intercept_next_error {b z : ReadCloser} {size : Nat} {e : Error}
    (hopt : (resolveOption c req).ShouldCompress = some true) (hbody : req.Body = some b)
    (hread : b.failure = none) (hz : compressReqBody gz b.pending = .ok (z, size))
    (herr : (pipeline.Next s (compressedRequest req z size) middlewareIndex).err = some e) :
    Intercept gz c pipeline s middlewareIndex req =
      { calls := [⟨compressedRequest req z size, middlewareIndex,
          (pipeline.Next s (compressedRequest req z size) middlewareIndex).resp, some e⟩],
        req := (pipeline.Next s (compressedRequest req z size) middlewareIndex).req,
        state := (pipeline.Next s (compressedRequest req z size) middlewareIndex).state,
        outcome := .returned none (some e) } := by
  have hreq : compressedRequest { req with Body := some (ReadAll b).1 } z size =
      compressedRequest req z size := rfl
  simp [Intercept, hbody, hopt, ReadAll, hread, hz] at hreq ⊢
  simp [hreq, herr]

theorem intercept_nil_response {b z : ReadCloser} {size : Nat}
    (hopt : (resolveOption c req).ShouldCompress = some true) (hbody : req.Body = some b)
    (hread : b.failure = none) (hz : compressReqBody gz b.pending = .ok (z, size))
    (herr : (pipeline.Next s (compressedRequest req z size) middlewareIndex).err = none)
    (hresp : (pipeline.Next s (compressedRequest req z size) middlewareIndex).resp = none) :
    Intercept gz c pipeline s middlewareIndex req =
      { calls := [⟨compressedRequest req z size, middlewareIndex, none, none⟩],
        req := (pipeline.Next s (compressedRequest req z size) middlewareIndex).req,
        state := (pipeline.Next s (compressedRequest req z size) middlewareIndex).state,
        outcome := .panicked } := by
  have hreq : compressedRequest { req with Body := some (ReadAll b).1 } z size =
      compressedRequest req z size := rfl
  simp [Intercept, hbody, hopt, ReadAll, hread, hz] at hreq ⊢
  simp [hreq, herr, hresp]

theorem intercept_other_status {b z : ReadCloser} {size : Nat} {resp : Response}
    (hopt : (resolveOption c req).ShouldCompress = some true) (hbody : req.Body = some b)
    (hread : b.failure = none) (hz : compressReqBody gz b.pending = .ok (z, size))
    (herr : (pipeline.Next s (compressedRequest req z size) middlewareIndex).err = none)
    (hresp : (pipeline.Next s (compressedRequest req z size) middlewareIndex).resp = some resp)
    (hstatus : resp.StatusCode ≠ 415) :
    Intercept gz c pipeline s middlewareIndex req =
      { calls := [⟨compressedRequest req z size, middlewareIndex, some resp, none⟩],
        req := (pipeline.Next s (compressedRequest req z size) middlewareIndex).req,
        state := (pipeline.Next s (compressedRequest req z size) middlewareIndex).state,
        outcome := .returned (some resp) none } := by
  have hreq : compressedRequest { req with Body := some (ReadAll b).1 } z size =
      compressedRequest req z size := rfl
  simp [Intercept, hbody, hopt, ReadAll, hread, hz] at hreq ⊢
  simp [hreq, herr, hresp, hstatus]

/-- The run that forwards the compressed request, is answered 415 without error, and
forwards the restored request. -/
theorem intercept_retry_run {b z : ReadCloser} {size : Nat} {resp : Response}
    (hopt : (resolveOption c req).ShouldCompress = some true) (hbody : req.Body = some b)
    (hread : b.failure = none) (hz : compressReqBody gz b.pending = .ok (z, size))
    (herr : (pipeline.Next s (compressedRequest req z size) middlewareIndex).err = none)
    (hresp : (pipeline.Next s (compressedRequest req z size) middlewareIndex).resp = some resp)
    (hstatus : resp.StatusCode = 415) :
    Intercept gz c pipeline s middlewareIndex req =
      retryRun pipeline s middlewareIndex req b z size := by
  have hreq : compressedRequest { req with Body := some (ReadAll b).1 } z size =
      compressedRequest req z size := rfl
  simp [Intercept, hbody, hopt, ReadAll, hread, hz] at hreq ⊢
  simp [hreq, herr, hresp, hstatus, retryRun, firstNext, secondRequest, secondNext]

end Branches

/-! ## The gzip collaborator -/

theorem compressReqBody_size {W : Type} (gz : GzipWriter W) {reqBody : List UInt8}
    {body : ReadCloser} {size : Nat} (h : compressReqBody gz reqBody = .ok (body, size)) :
    body.failure = none ∧ size = body.pending.length := by
  unfold compressReqBody at h
  cases hw : gz.Write gz.NewWriter reqBody with
  | error e => simp [hw] at h
  | ok r =>
    obtain ⟨w, written⟩ := r
    cases hc : gz.Close w with
    | error e => simp [hw, hc] at h
    | ok flushed =>
      simp only [hw, hc, Except.ok.injEq, Prod.mk.injEq] at h
      obtain ⟨hb, hs⟩ := h
      subst hb hs
      simp [NopCloser]

theorem compressReqBody_of_contract {W : Type} {gz : GzipWriter W}
    {gunzip : List UInt8 → Option (List UInt8)} (hgz : GzipContract gz gunzip)
    (reqBody : List UInt8) :
    ∃ z, compressReqBody gz reqBody = .ok (NopCloser z, z.length) ∧ gunzip z = some reqBody := by
  obtain ⟨w, written, flushed, hw, hc, hg⟩ := hgz reqBody
  exact ⟨written ++ flushed, by simp [compressReqBody, hw, hc], hg⟩

theorem storedGzip_contract : GzipContract storedGzip storedGunzip := by
  intro p
  exact ⟨true, gzipMagic ++ p, [], rfl, rfl, by simp [storedGunzip, gzipMagic]⟩

theorem intercept_first_call {W σ : Type} (gz : GzipWriter W) (c : CompressionHandler)
    (pipeline : Pipeline σ) (s : σ) (middlewareIndex : Int) (req : Request)
    {b z : ReadCloser} {size : Nat}
    (hopt : (resolveOption c req).ShouldCompress = some true) (hbody : req.Body = some b)
    (hread : b.failure = none) (hz : compressReqBody gz b.pending = .ok (z, size)) :
    ∃ rest, (Intercept gz c pipeline s middlewareIndex req).calls =
      ⟨compressedRequest req z size, middlewareIndex,
        (firstNext pipeline s middlewareIndex req z size).resp,
        (firstNext pipeline s middlewareIndex req z size).err⟩ :: rest := by
  cases herr : (pipeline.Next s (compressedRequest req z size) middlewareIndex).err with
  | some e =>
    rw [intercept_next_error gz c pipeline s middlewareIndex req hopt hbody hread hz herr]
    exact ⟨[], by simp [firstNext, herr]⟩
  | none =>
    cases hresp : (pipeline.Next s (compressedRequest req z size) middlewareIndex).resp with
    | none =>
      rw [intercept_nil_response gz c pipeline s middlewareIndex req hopt hbody hread hz herr
        hresp]
      exact ⟨[], by simp [firstNext, herr, hresp]⟩
    | some resp =>
      by_cases hstatus : resp.StatusCode = 415
      · rw [intercept_retry_run gz c pipeline s middlewareIndex req hopt hbody hread hz herr
          hresp hstatus]
        exact ⟨_, rfl⟩
      · rw [intercept_other_status gz c pipeline s middlewareIndex req hopt hbody hread hz herr
          hresp hstatus]
        exact ⟨[], by simp [firstNext, herr, hresp]⟩

/-! ## Pass-through -/

/-- Counterexample to C1 as stated: a request without a body whose per-request option is
a nil `*CompressionOptions`. The type assertion of line 60 succeeds, line 65 calls
`ShouldCompress()` before it looks at the body, the call panics, and `pipeline.Next` is
never called. -/
theorem nil_body_counterexample :
    nilOptionRequest.Body = none ∧
      resolveOption NewCompressionHandler nilOptionRequest = .ofNilOptions ∧
      (Intercept storedGzip NewCompressionHandler scripted [status 200] 3
        nilOptionRequest).calls = [] ∧
      (Intercept storedGzip NewCompressionHandler scripted [status 200] 3
        nilOptionRequest).outcome = .panicked ∧
      (Intercept storedGzip NewCompressionHandler scripted [status 200] 3
        nilOptionRequest).calls.length ≠ 1 :=
  ⟨rfl, rfl, rfl, rfl, by decide⟩

/-- C1 (amended). When `ShouldCompress()` on the effective options returns false, or
returns (whatever its answer) and the request has no body, `Intercept` makes exactly one
`pipeline.Next` call, with the request exactly as it was on entry (every field) and the
same position index, returns the pair of that call, and leaves the request as that call
left it. -/
theorem intercept_pass_through {W σ : Type} (gz : GzipWriter W) (c : CompressionHandler)
    (pipeline : Pipeline σ) (s : σ) (middlewareIndex : Int) (req : Request)
    (shouldCompress : Bool)
    (hopt : (resolveOption c req).ShouldCompress = some shouldCompress)
    (h : shouldCompress = false ∨ req.Body = none) :
    (Intercept gz c pipeline s middlewareIndex req).calls =
        [⟨req, middlewareIndex, (pipeline.Next s req middlewareIndex).resp,
          (pipeline.Next s req middlewareIndex).err⟩] ∧
      (Intercept gz c pipeline s middlewareIndex req).outcome =
        .returned (pipeline.Next s req middlewareIndex).resp
          (pipeline.Next s req middlewareIndex).err ∧
      (Intercept gz c pipeline s middlewareIndex req).req =
        (pipeline.Next s req middlewareIndex).req := by
  have hrun : Intercept gz c pipeline s middlewareIndex req =
      forwardRun pipeline s middlewareIndex req := by
    rcases h with h | h
    · subst h
      exact intercept_disabled gz c pipeline s middlewareIndex req hopt
    · exact intercept_nil_body gz c pipeline s middlewareIndex req hopt h
  rw [hrun]
  exact ⟨rfl, rfl, rfl⟩

theorem intercept_pass_through_witness :
    ((resolveOption NewCompressionHandler (helloRequestWith false)).ShouldCompress =
          some false ∧
        (Intercept storedGzip NewCompressionHandler scripted [status 200] 3
          (helloRequestWith false)).calls =
          [⟨helloRequestWith false, 3, some ⟨200, []⟩, none⟩] ∧
        (Intercept storedGzip NewCompressionHandler scripted [status 200] 3
          (helloRequestWith false)).outcome = .returned (some ⟨200, []⟩) none ∧
        (Intercept storedGzip NewCompressionHandler scripted [status 200] 3
          (helloRequestWith false)).req = helloRequestWith false) ∧
      ((resolveOption NewCompressionHandler bodylessRequest).ShouldCompress = some true ∧
        bodylessRequest.Body = none ∧
        (Intercept storedGzip NewCompressionHandler scripted [status 415, status 200] 3
          bodylessRequest).calls = [⟨bodylessRequest, 3, some ⟨415, []⟩, none⟩] ∧
        (Intercept storedGzip NewCompressionHandler scripted [status 415, status 200] 3
          bodylessRequest).outcome = .returned (some ⟨415, []⟩) none ∧
        (Intercept storedGzip NewCompressionHandler scripted [status 415, status 200] 3
          bodylessRequest).req = bodylessRequest) :=
  ⟨⟨rfl,
      intercept_pass_through storedGzip NewCompressionHandler scripted [status 200] 3
        (helloRequestWith false) false rfl (Or.inl rfl)⟩,
    ⟨rfl, rfl,
      intercept_pass_through storedGzip NewCompressionHandler scripted [status 415, status 200] 3
        bodylessRequest true rfl (Or.inr rfl)⟩⟩

/-! ## Compression -/

/-- C8. Whenever `compressReqBody` succeeds, the body it returns is a reader that ends
with EOF and holds exactly as many bytes as the size returned; and with a gzip
collaborator that keeps its contract it succeeds on every byte sequence, the empty one
included, and the body it returns gzip-decompresses to exactly the input. -/
theorem compressReqBody_round_trip {W : Type} (gz : GzipWriter W)
    (gunzip : List UInt8 → Option (List UInt8)) (reqBody : List UInt8) :
    (∀ body size, compressReqBody gz reqBody = .ok (body, size) →
        body.failure = none ∧ size = body.pending.length) ∧
      (GzipContract gz gunzip →
        ∃ body size, compressReqBody gz reqBody = .ok (body, size) ∧
          gunzip body.pending = some reqBody ∧ size = body.pending.length) := by
  refine ⟨fun body size h => compressReqBody_size gz h, fun hgz => ?_⟩
  obtain ⟨z, hz, hg⟩ := compressReqBody_of_contract hgz reqBody
  exact ⟨NopCloser z, z.length, hz, hg, rfl⟩

theorem compressReqBody_round_trip_witness :
    (compressReqBody storedGzip [] = .ok (NopCloser gzipMagic, 2) ∧
        (NopCloser gzipMagic).failure = none ∧ 2 = (NopCloser gzipMagic).pending.length) ∧
      GzipContract storedGzip storedGunzip ∧
      ∃ body size, compressReqBody storedGzip helloWorld = .ok (body, size) ∧
        storedGunzip body.pending = some helloWorld ∧ size = body.pending.length :=
  ⟨⟨rfl, (compressReqBody_round_trip storedGzip storedGunzip []).1 _ _ rfl⟩,
    storedGzip_contract,
    (compressReqBody_round_trip storedGzip storedGunzip helloWorld).2 storedGzip_contract⟩

/-- C2. With compression enabled in the effective options, a body that reads to EOF with
bytes `B`, and a gzip collaborator that keeps its contract, `Intercept` calls
`pipeline.Next`, and the request of the first call is the request on entry with header
`Content-Encoding` set to `gzip`, a body made of the bytes `z` that `compressReqBody`
produced for `B` (they gzip-decompress to exactly `B`), and content-length equal to the
number of those bytes. -/
theorem intercept_compressed_forward {W σ : Type} (gz : GzipWriter W)
    (gunzip : List UInt8 → Option (List UInt8)) (c : CompressionHandler)
    (pipeline : Pipeline σ) (s : σ) (middlewareIndex : Int) (req : Request) (b : ReadCloser)
    (hgz : GzipContract gz gunzip)
    (hopt : (resolveOption c req).ShouldCompress = some true) (hbody : req.Body = some b)
    (hread : b.failure = none) :
    ∃ (z : List UInt8) (first : Call) (rest : List Call),
      (Intercept gz c pipeline s middlewareIndex req).calls = first :: rest ∧
        first.middlewareIndex = middlewareIndex ∧
        first.req = compressedRequest req (NopCloser z) z.length ∧
        first.req.Header "Content-Encoding" = some ["gzip"] ∧
        first.req.Header.Get "Content-Encoding" = "gzip" ∧
        first.req.Body = some (NopCloser z) ∧
        compressReqBody gz b.pending = .ok (NopCloser z, z.length) ∧
        gunzip z = some b.pending ∧
        first.req.ContentLength = Int.ofNat z.length := by
  obtain ⟨z, hz, hg⟩ := compressReqBody_of_contract hgz b.pending
  obtain ⟨rest, hcalls⟩ :=
    intercept_first_call gz c pipeline s middlewareIndex req hopt hbody hread hz
  exact ⟨z, _, rest, hcalls, rfl, rfl, by simp [compressedRequest, Header.Set],
    by simp [compressedRequest, Header.Set, Header.Get], rfl, hz, hg, rfl⟩

theorem intercept_compressed_forward_witness :
    GzipContract storedGzip storedGunzip ∧
      (resolveOption NewCompressionHandler helloRequest).ShouldCompress = some true ∧
      helloRequest.Body = some (NopCloser helloWorld) ∧
      (NopCloser helloWorld).failure = none ∧
      ∃ (z : List UInt8) (first : Call) (rest : List Call),
        (Intercept storedGzip NewCompressionHandler scripted [status 200] 3
            helloRequest).calls = first :: rest ∧
          first.middlewareIndex = 3 ∧
          first.req = compressedRequest helloRequest (NopCloser z) z.length ∧
          first.req.Header "Content-Encoding" = some ["gzip"] ∧
          first.req.Header.Get "Content-Encoding" = "gzip" ∧
          first.req.Body = some (NopCloser z) ∧
          compressReqBody storedGzip helloWorld = .ok (NopCloser z, z.length) ∧
          storedGunzip z = some helloWorld ∧
          first.req.ContentLength = Int.ofNat z.length :=
  ⟨storedGzip_contract, rfl, rfl, rfl,
    intercept_compressed_forward storedGzip storedGunzip NewCompressionHandler scripted
      [status 200] 3 helloRequest (NopCloser helloWorld) storedGzip_contract rfl rfl rfl⟩

/-! ## Retry -/

/-- Counterexample to C3 as stated: hello world posted with content-length `-1` to a
downstream that answers 415 and then 200 is retried with the body restored and
content-length `-1`, not the 11 bytes of the body. -/
theorem retry_content_length_counterexample :
    (resolveOption NewCompressionHandler unknownLengthRequest).ShouldCompress = some true ∧
      unknownLengthRequest.Body = some (NopCloser helloWorld) ∧
      ∃ first second : Call,
        (Intercept storedGzip NewCompressionHandler scripted [status 415, status 200] 3
            unknownLengthRequest).calls = [first, second] ∧
          first.resp = some ⟨415, []⟩ ∧ first.err = none ∧
          second.req.Body = some (NopCloser helloWorld) ∧
          second.req.ContentLength = -1 ∧
          second.req.ContentLength ≠ Int.ofNat helloWorld.length :=
  ⟨rfl, rfl, _, _, rfl, rfl, rfl, rfl, rfl, by decide⟩

/-- C3 (amended). On the compression path, with body bytes `B` read to EOF and compressed,
if the first `pipeline.Next` call returns no error and a response with status 415, then
`Intercept` makes exactly one more call, with the same position index and a request whose
body is a fresh reader over exactly `B`, that has no `Content-Encoding` header, and whose
content-length is the content-length the request had on entry; the pair of that second
call is what `Intercept` returns. -/
theorem intercept_retry {W σ : Type} (gz : GzipWriter W) (c : CompressionHandler)
    (pipeline : Pipeline σ) (s : σ) (middlewareIndex : Int) (req : Request)
    (b z : ReadCloser) (size : Nat) (resp : Response)
    (hopt : (resolveOption c req).ShouldCompress = some true) (hbody : req.Body = some b)
    (hread : b.failure = none) (hz : compressReqBody gz b.pending = .ok (z, size))
    (herr : (firstNext pipeline s middlewareIndex req z size).err = none)
    (hresp : (firstNext pipeline s middlewareIndex req z size).resp = some resp)
    (hstatus : resp.StatusCode = 415) :
    ∃ second : Call,
      (Intercept gz c pipeline s middlewareIndex req).calls =
          [⟨compressedRequest req z size, middlewareIndex, some resp, none⟩, second] ∧
        second.middlewareIndex = middlewareIndex ∧
        second.req.Body = some (NopCloser b.pending) ∧
        second.req.Header "Content-Encoding" = none ∧
        second.req.ContentLength = req.ContentLength ∧
        second.resp = (secondNext pipeline s middlewareIndex req b z size).resp ∧
        second.err = (secondNext pipeline s middlewareIndex req b z size).err ∧
        (Intercept gz c pipeline s middlewareIndex req).outcome =
          .returned second.resp second.err := by
  rw [intercept_retry_run gz c pipeline s middlewareIndex req hopt hbody hread hz herr hresp
    hstatus]
  refine ⟨⟨secondRequest pipeline s middlewareIndex req b z size, middlewareIndex,
    (secondNext pipeline s middlewareIndex req b z size).resp,
    (secondNext pipeline s middlewareIndex req b z size).err⟩, ?_, rfl, rfl, ?_, rfl, rfl, rfl,
    rfl⟩
  · simp [retryRun, herr, hresp]
  · simp [secondRequest, restoredRequest, Header.Del]

theorem intercept_retry_witness :
    (resolveOption NewCompressionHandler helloRequest).ShouldCompress = some true ∧
      helloRequest.Body = some (NopCloser helloWorld) ∧
      ∃ second : Call,
        (Intercept storedGzip NewCompressionHandler scripted [status 415, status 200] 3
            helloRequest).calls =
            [⟨compressedRequest helloRequest (NopCloser (gzipMagic ++ helloWorld)) 13, 3,
              some ⟨415, []⟩, none⟩, second] ∧
          second.middlewareIndex = 3 ∧
          second.req.Body = some (NopCloser helloWorld) ∧
          second.req.Header "Content-Encoding" = none ∧
          second.req.ContentLength = 11 ∧
          second.resp = some ⟨200, []⟩ ∧
          second.err = none ∧
          (Intercept storedGzip NewCompressionHandler scripted [status 415, status 200] 3
            helloRequest).outcome = .returned second.resp second.err :=
  ⟨rfl, rfl,
    intercept_retry storedGzip NewCompressionHandler scripted [status 415, status 200] 3
      helloRequest (NopCloser helloWorld) (NopCloser (gzipMagic ++ helloWorld)) 13 ⟨415, []⟩
      rfl rfl rfl rfl rfl rfl rfl⟩

/-- Counterexample to C9 as stated: a request that arrives with `Content-Encoding: deflate`
and is answered 415 is retried without any `Content-Encoding` entry, so the headers of the
second call are not the headers on entry. -/
theorem retry_headers_counterexample :
    (resolveOption NewCompressionHandler encodedRequest).ShouldCompress = some true ∧
      encodedRequest.Body = some (NopCloser helloWorld) ∧
      ∃ first second : Call,
        (Intercept storedGzip NewCompressionHandler scripted [status 415, status 200] 3
            encodedRequest).calls = [first, second] ∧
          first.resp = some ⟨415, []⟩ ∧ first.err = none ∧
          encodedRequest.Header "Content-Encoding" = some ["deflate"] ∧
          second.req.Header "Content-Encoding" = none ∧
          second.req.Header ≠ encodedRequest.Header :=
  ⟨rfl, rfl, _, _, rfl, rfl, rfl, by decide, by decide,
    fun h => absurd (congrFun h "Content-Encoding") (by decide)⟩

/-- C9 (amended). On the 415 retry path the request given to the second
`pipeline.Next` call is the request as the first call left it with three fields
overwritten: the body is a fresh reader over the bytes read on entry, the content-length
is the one the request had on entry (whether or not it matches the body), and the header
map has no `Content-Encoding` entry while every other entry is as the first call left it.
When the first call left the headers as it received them, the headers are the entry
headers with any `Content-Encoding` entry removed; they equal the entry headers when the
request carried no `Content-Encoding` header on entry. -/
theorem intercept_retry_restores {W σ : Type} (gz : GzipWriter W) (c : CompressionHandler)
    (pipeline : Pipeline σ) (s : σ) (middlewareIndex : Int) (req : Request)
    (b z : ReadCloser) (size : Nat) (resp : Response)
    (hopt : (resolveOption c req).ShouldCompress = some true) (hbody : req.Body = some b)
    (hread : b.failure = none) (hz : compressReqBody gz b.pending = .ok (z, size))
    (herr : (firstNext pipeline s middlewareIndex req z size).err = none)
    (hresp : (firstNext pipeline s middlewareIndex req z size).resp = some resp)
    (hstatus : resp.StatusCode = 415) :
    ∃ first second : Call,
      (Intercept gz c pipeline s middlewareIndex req).calls = [first, second] ∧
        second.req = restoredRequest (firstNext pipeline s middlewareIndex req z size).req
          b.pending req.ContentLength ∧
        second.req.Body = some (NopCloser b.pending) ∧
        second.req.ContentLength = req.ContentLength ∧
        second.req.Header "Content-Encoding" = none ∧
        (∀ k, k ≠ "Content-Encoding" →
          second.req.Header k = (firstNext pipeline s middlewareIndex req z size).req.Header k) ∧
        ((firstNext pipeline s middlewareIndex req z size).req.Header =
            (compressedRequest req z size).Header →
          second.req.Header = req.Header.Del "Content-Encoding" ∧
            (req.Header "Content-Encoding" = none → second.req.Header = req.Header)) := by
  rw [intercept_retry_run gz c pipeline s middlewareIndex req hopt hbody hread hz herr hresp
    hstatus]
  refine ⟨_, ⟨secondRequest pipeline s middlewareIndex req b z size, middlewareIndex,
    (secondNext pipeline s middlewareIndex req b z size).resp,
    (secondNext pipeline s middlewareIndex req b z size).err⟩, rfl, rfl, rfl, rfl, ?_, ?_, ?_⟩
  · simp [secondRequest, restoredRequest, Header.Del]
  · intro k hk
    simp [secondRequest, restoredRequest, Header.Del, hk]
  · intro hkeep
    have hdel : (secondRequest pipeline s middlewareIndex req b z size).Header =
        req.Header.Del "Content-Encoding" := by
      funext k
      simp only [secondRequest, restoredRequest, hkeep, compressedRequest, Header.Del,
        Header.Set]
      split <;> rfl
    refine ⟨hdel, fun hnone => ?_⟩
    rw [hdel]
    funext k
    simp only [Header.Del]
    split
    · next hk => rw [hk, hnone]
    · rfl

theorem intercept_retry_restores_witness :
    (resolveOption NewCompressionHandler helloRequest).ShouldCompress = some true ∧
      helloRequest.Body = some (NopCloser helloWorld) ∧
      helloRequest.Header "Content-Encoding" = none ∧
      ∃ first second : Call,
        (Intercept storedGzip NewCompressionHandler scripted [status 415, status 200] 3
            helloRequest).calls = [first, second] ∧
          second.req.Body = some (NopCloser helloWorld) ∧
          second.req.ContentLength = 11 ∧
          second.req.Header "Content-Encoding" = none ∧
          second.req.Header = helloRequest.Header :=
  ⟨rfl, rfl, rfl,
    match intercept_retry_restores storedGzip NewCompressionHandler scripted
      [status 415, status 200] 3 helloRequest (NopCloser helloWorld)
      (NopCloser (gzipMagic ++ helloWorld)) 13 ⟨415, []⟩ rfl rfl rfl rfl rfl rfl rfl with
    | ⟨first, second, hcalls, _, hb, hl, hce, _, hkeep⟩ =>
      ⟨first, second, hcalls, hb, hl, hce, (hkeep rfl).2 rfl⟩⟩

/-! ## Number of calls -/

theorem intercept_classify {W σ : Type} (gz : GzipWriter W) (c : CompressionHandler)
    (pipeline : Pipeline σ) (s : σ) (middlewareIndex : Int) (req : Request) :
    (Intercept gz c pipeline s middlewareIndex req).calls.length ≤ 1 ∨
      ∃ b z size, Intercept gz c pipeline s middlewareIndex req =
        retryRun pipeline s middlewareIndex req b z size := by
  cases hopt : (resolveOption c req).ShouldCompress with
  | none =>
    rw [intercept_option_panic gz c pipeline s middlewareIndex req hopt]
    exact Or.inl (by simp)
  | some shouldCompress =>
  cases shouldCompress with
  | false =>
    rw [intercept_disabled gz c pipeline s middlewareIndex req hopt]
    exact Or.inl (by simp [forwardRun])
  | true =>
    cases hbody : req.Body with
    | none =>
      rw [intercept_nil_body gz c pipeline s middlewareIndex req hopt hbody]
      exact Or.inl (by simp [forwardRun])
    | some b =>
      cases hread : b.failure with
      | some e =>
        rw [intercept_read_error gz c pipeline s middlewareIndex req hopt hbody hread]
        exact Or.inl (by simp)
      | none =>
        cases hz : compressReqBody gz b.pending with
        | error e =>
          rw [intercept_compress_error gz c pipeline s middlewareIndex req hopt hbody hread hz]
          exact Or.inl (by simp)
        | ok r =>
          obtain ⟨z, size⟩ := r
          cases herr : (pipeline.Next s (compressedRequest req z size) middlewareIndex).err with
          | some e =>
            rw [intercept_next_error gz c pipeline s middlewareIndex req hopt hbody hread hz
              herr]
            exact Or.inl (by simp)
          | none =>
            cases hresp :
                (pipeline.Next s (compressedRequest req z size) middlewareIndex).resp with
            | none =>
              rw [intercept_nil_response gz c pipeline s middlewareIndex req hopt hbody hread
                hz herr hresp]
              exact Or.inl (by simp)
            | some resp =>
              by_cases hstatus : resp.StatusCode = 415
              · exact Or.inr ⟨b, z, size, intercept_retry_run gz c pipeline s middlewareIndex
                  req hopt hbody hread hz herr hresp hstatus⟩
              · rw [intercept_other_status gz c pipeline s middlewareIndex req hopt hbody hread
                  hz herr hresp hstatus]
                exact Or.inl (by simp)

/-- C4. Whatever the pipeline and the request, one `Intercept` call makes at most two
`pipeline.Next` calls; and when two calls were made whose responses both have status 415,
there is no third call and `Intercept` returns the second response, with the error the
second call returned beside it. -/
theorem intercept_at_most_two_calls {W σ : Type} (gz : GzipWriter W)
    (c : CompressionHandler) (pipeline : Pipeline σ) (s : σ) (middlewareIndex : Int)
    (req : Request) :
    (Intercept gz c pipeline s middlewareIndex req).calls.length ≤ 2 ∧
      ∀ (first second : Call) (rest : List Call) (resp1 resp2 : Response),
        (Intercept gz c pipeline s middlewareIndex req).calls = first :: second :: rest →
        first.resp = some resp1 → resp1.StatusCode = 415 →
        second.resp = some resp2 → resp2.StatusCode = 415 →
        rest = [] ∧
          (Intercept gz c pipeline s middlewareIndex req).outcome =
            .returned (some resp2) second.err := by
  rcases intercept_classify gz c pipeline s middlewareIndex req with hle | ⟨b, z, size, hrun⟩
  · refine ⟨by omega, ?_⟩
    intro first second rest resp1 resp2 hcalls
    rw [hcalls] at hle
    simp at hle
  · rw [hrun]
    refine ⟨by simp [retryRun], ?_⟩
    intro first second rest resp1 resp2 hcalls _ _ h2 _
    simp only [retryRun, List.cons.injEq] at hcalls
    obtain ⟨_, hsecond, hrest⟩ := hcalls
    subst hsecond
    exact ⟨hrest.symm, by simp only [retryRun]; rw [← h2]⟩

theorem intercept_at_most_two_calls_witness :
    (Intercept storedGzip NewCompressionHandler scripted [status 415, status 415, status 200]
        3 helloRequest).calls.length ≤ 2 ∧
      (Intercept storedGzip NewCompressionHandler scripted [status 415, status 415, status 200]
        3 helloRequest).outcome = .returned (some ⟨415, []⟩) none :=
  ⟨(intercept_at_most_two_calls storedGzip NewCompressionHandler scripted
      [status 415, status 415, status 200] 3 helloRequest).1,
    ((intercept_at_most_two_calls storedGzip NewCompressionHandler scripted
      [status 415, status 415, status 200] 3 helloRequest).2
      ⟨compressedRequest helloRequest (NopCloser (gzipMagic ++ helloWorld)) 13, 3,
        some ⟨415, []⟩, none⟩
      ⟨restoredRequest (compressedRequest helloRequest (NopCloser (gzipMagic ++ helloWorld)) 13)
        helloWorld 11, 3, some ⟨415, []⟩, none⟩
      [] ⟨415, []⟩ ⟨415, []⟩ rfl rfl rfl rfl rfl).2⟩

/-! ## Errors and other statuses -/

/-- C5. On the compression path: if reading the body fails with error `e`, or the body
reads to EOF and compressing it fails with `e`, `Intercept` returns a nil response with
that same `e` and makes no `pipeline.Next` call; if the first `pipeline.Next` call
returns error `e`, with whatever response beside it, `Intercept` returns a nil response
with that same `e` after exactly that one call. -/
theorem intercept_error_propagation {W σ : Type} (gz : GzipWriter W)
    (c : CompressionHandler) (pipeline : Pipeline σ) (s : σ) (middlewareIndex : Int)
    (req : Request) (b : ReadCloser)
    (hopt : (resolveOption c req).ShouldCompress = some true) (hbody : req.Body = some b) :
    (∀ e, b.failure = some e →
        (Intercept gz c pipeline s middlewareIndex req).calls = [] ∧
          (Intercept gz c pipeline s middlewareIndex req).outcome = .returned none (some e)) ∧
      (∀ e, b.failure = none → compressReqBody gz b.pending = .error e →
        (Intercept gz c pipeline s middlewareIndex req).calls = [] ∧
          (Intercept gz c pipeline s middlewareIndex req).outcome = .returned none (some e)) ∧
      (∀ e z size, b.failure = none → compressReqBody gz b.pending = .ok (z, size) →
        (firstNext pipeline s middlewareIndex req z size).err = some e →
        (Intercept gz c pipeline s middlewareIndex req).calls =
            [⟨compressedRequest req z size, middlewareIndex,
              (firstNext pipeline s middlewareIndex req z size).resp, some e⟩] ∧
          (Intercept gz c pipeline s middlewareIndex req).outcome = .returned none (some e)) := by
  refine ⟨fun e hread => ?_, fun e hread hz => ?_, fun e z size hread hz herr => ?_⟩
  · rw [intercept_read_error gz c pipeline s middlewareIndex req hopt hbody hread]
    exact ⟨rfl, rfl⟩
  · rw [intercept_compress_error gz c pipeline s middlewareIndex req hopt hbody hread hz]
    exact ⟨rfl, rfl⟩
  · rw [intercept_next_error gz c pipeline s middlewareIndex req hopt hbody hread hz herr]
    exact ⟨rfl, rfl⟩

theorem intercept_error_propagation_witness :
    ((Intercept storedGzip NewCompressionHandler scripted [status 200] 3 failingRequest).calls
          = [] ∧
        (Intercept storedGzip NewCompressionHandler scripted [status 200] 3
          failingRequest).outcome = .returned none (some "connection reset")) ∧
      ((Intercept (brokenGzip "short write") NewCompressionHandler scripted [status 200] 3
          helloRequest).calls = [] ∧
        (Intercept (brokenGzip "short write") NewCompressionHandler scripted [status 200] 3
          helloRequest).outcome = .returned none (some "short write")) ∧
      ((Intercept storedGzip NewCompressionHandler scripted
          [(some ⟨415, []⟩, some "connection refused"), status 200] 3 helloRequest).calls =
          [⟨compressedRequest helloRequest (NopCloser (gzipMagic ++ helloWorld)) 13, 3,
            some ⟨415, []⟩, some "connection refused"⟩] ∧
        (Intercept storedGzip NewCompressionHandler scripted
          [(some ⟨415, []⟩, some "connection refused"), status 200] 3 helloRequest).outcome =
          .returned none (some "connection refused")) :=
  ⟨(intercept_error_propagation storedGzip NewCompressionHandler scripted [status 200] 3
      failingRequest { pending := [104, 105], failure := some "connection reset" } rfl rfl).1
      "connection reset" rfl,
    (intercept_error_propagation (brokenGzip "short write") NewCompressionHandler scripted
      [status 200] 3 helloRequest (NopCloser helloWorld) rfl rfl).2.1 "short write" rfl rfl,
    (intercept_error_propagation storedGzip NewCompressionHandler scripted
      [(some ⟨415, []⟩, some "connection refused"), status 200] 3 helloRequest
      (NopCloser helloWorld) rfl rfl).2.2 "connection refused"
      (NopCloser (gzipMagic ++ helloWorld)) 13 rfl rfl rfl⟩

/-- C7. On the compression path, when the first `pipeline.Next` call returns no error and
a response whose status is not 415, `Intercept` makes exactly that one call and returns
that very response with a nil error. -/
theorem intercept_other_status_pass_through {W σ : Type} (gz : GzipWriter W)
    (c : CompressionHandler) (pipeline : Pipeline σ) (s : σ) (middlewareIndex : Int)
    (req : Request) (b z : ReadCloser) (size : Nat) (resp : Response)
    (hopt : (resolveOption c req).ShouldCompress = some true) (hbody : req.Body = some b)
    (hread : b.failure = none) (hz : compressReqBody gz b.pending = .ok (z, size))
    (herr : (firstNext pipeline s middlewareIndex req z size).err = none)
    (hresp : (firstNext pipeline s middlewareIndex req z size).resp = some resp)
    (hstatus : resp.StatusCode ≠ 415) :
    (Intercept gz c pipeline s middlewareIndex req).calls =
        [⟨compressedRequest req z size, middlewareIndex, some resp, none⟩] ∧
      (Intercept gz c pipeline s middlewareIndex req).outcome = .returned (some resp) none := by
  rw [intercept_other_status gz c pipeline s middlewareIndex req hopt hbody hread hz herr hresp
    hstatus]
  exact ⟨rfl, rfl⟩

theorem intercept_other_status_pass_through_witness :
    (resolveOption NewCompressionHandler helloRequest).ShouldCompress = some true ∧
      (⟨500, helloWorld⟩ : Response).StatusCode ≠ 415 ∧
      (Intercept storedGzip NewCompressionHandler scripted
          [(some ⟨500, helloWorld⟩, none), status 200] 3 helloRequest).calls =
        [⟨compressedRequest helloRequest (NopCloser (gzipMagic ++ helloWorld)) 13, 3,
          some ⟨500, helloWorld⟩, none⟩] ∧
      (Intercept storedGzip NewCompressionHandler scripted
          [(some ⟨500, helloWorld⟩, none), status 200] 3 helloRequest).outcome =
        .returned (some ⟨500, helloWorld⟩) none :=
  ⟨rfl, by decide,
    intercept_other_status_pass_through storedGzip NewCompressionHandler scripted
      [(some ⟨500, helloWorld⟩, none), status 200] 3 helloRequest (NopCloser helloWorld)
      (NopCloser (gzipMagic ++ helloWorld)) 13 ⟨500, helloWorld⟩ rfl rfl rfl rfl rfl rfl
      (by decide)⟩

/-! ## Failure before forwarding -/

/-- Counterexample to C10 as stated: a body that delivers two bytes and then fails makes
`Intercept` return the read error, and the body of the request is then no longer what it
was on entry: the two bytes have been read. -/
theorem failure_consumes_body_counterexample :
    (resolveOption NewCompressionHandler failingRequest).ShouldCompress = some true ∧
      failingRequest.Body = some { pending := [104, 105], failure := some "connection reset" } ∧
      (Intercept storedGzip NewCompressionHandler scripted [status 200] 3
        failingRequest).outcome = .returned none (some "connection reset") ∧
      (Intercept storedGzip NewCompressionHandler scripted [status 200] 3
        failingRequest).req.Body = some { pending := [], failure := some "connection reset" } ∧
      (Intercept storedGzip NewCompressionHandler scripted [status 200] 3
        failingRequest).req.Body ≠ failingRequest.Body :=
  ⟨rfl, rfl, rfl, rfl, by decide⟩

/-- C10 (amended). Whenever `Intercept` returns because reading the body failed or
compressing it failed, it has made no `pipeline.Next` call, the error returned is the
error of the collaborator itself, and the request differs from the request on entry only in
that its body reader has been read: headers and content-length are those on entry, the
body is still the reader the request had (never the compressed stream), now with the
bytes it delivered consumed. -/
theorem intercept_failure_leaves_fields {W σ : Type} (gz : GzipWriter W)
    (c : CompressionHandler) (pipeline : Pipeline σ) (s : σ) (middlewareIndex : Int)
    (req : Request) (b : ReadCloser) (e : Error)
    (hopt : (resolveOption c req).ShouldCompress = some true) (hbody : req.Body = some b)
    (hfail : b.failure = some e ∨
      (b.failure = none ∧ compressReqBody gz b.pending = .error e)) :
    (Intercept gz c pipeline s middlewareIndex req).outcome = .returned none (some e) ∧
      (Intercept gz c pipeline s middlewareIndex req).calls = [] ∧
      (Intercept gz c pipeline s middlewareIndex req).req =
        { req with Body := some { pending := [], failure := b.failure } } ∧
      (Intercept gz c pipeline s middlewareIndex req).req.Header = req.Header ∧
      (Intercept gz c pipeline s middlewareIndex req).req.ContentLength = req.ContentLength ∧
      (Intercept gz c pipeline s middlewareIndex req).req.Body =
        some { pending := [], failure := b.failure } := by
  have hrun : Intercept gz c pipeline s middlewareIndex req =
      { calls := [], req := { req with Body := some (ReadAll b).1 }, state := s,
        outcome := .returned none (some e) } := by
    rcases hfail with hread | ⟨hread, hz⟩
    · exact intercept_read_error gz c pipeline s middlewareIndex req hopt hbody hread
    · exact intercept_compress_error gz c pipeline s middlewareIndex req hopt hbody hread hz
  rw [hrun]
  exact ⟨rfl, rfl, rfl, rfl, rfl, rfl⟩

theorem intercept_failure_leaves_fields_witness :
    ((Intercept storedGzip NewCompressionHandler scripted [status 200] 3
          failingRequest).outcome = .returned none (some "connection reset") ∧
        (Intercept storedGzip NewCompressionHandler scripted [status 200] 3
          failingRequest).calls = [] ∧
        (Intercept storedGzip NewCompressionHandler scripted [status 200] 3
          failingRequest).req =
          { failingRequest with
            Body := some { pending := [], failure := some "connection reset" } } ∧
        (Intercept storedGzip NewCompressionHandler scripted [status 200] 3
          failingRequest).req.Header = failingRequest.Header ∧
        (Intercept storedGzip NewCompressionHandler scripted [status 200] 3
          failingRequest).req.ContentLength = failingRequest.ContentLength ∧
        (Intercept storedGzip NewCompressionHandler scripted [status 200] 3
          failingRequest).req.Body =
          some { pending := [], failure := some "connection reset" }) ∧
      (Intercept (brokenGzip "short write") NewCompressionHandler scripted [status 200] 3
          helloRequest).req.Body = some { pending := [], failure := none } :=
  ⟨intercept_failure_leaves_fields storedGzip NewCompressionHandler scripted [status 200] 3
      failingRequest { pending := [104, 105], failure := some "connection reset" }
      "connection reset" rfl rfl (Or.inl rfl),
    (intercept_failure_leaves_fields (brokenGzip "short write") NewCompressionHandler scripted
      [status 200] 3 helloRequest (NopCloser helloWorld) "short write" rfl rfl
      (Or.inr ⟨rfl, rfl⟩)).2.2.2.2.2⟩

/-! ## Option resolution -/

theorem resolveOption_of_implementing (c : CompressionHandler) (req : Request)
    {v : compression} (h : req.ctx compressKey = some (.implementing v)) :
    resolveOption c req = v := by
  simp [resolveOption, h, assertCompression]

theorem resolveOption_of_fallback (c : CompressionHandler) (req : Request)
    (h : req.ctx compressKey = none ∨ req.ctx compressKey = some .unrelated) :
    resolveOption c req = .ofOptions c.options := by
  rcases h with h | h <;> simp [resolveOption, h, assertCompression]

/-- C6. On every `Intercept` call the effective options are the value found in the
request context under `compressKey` when there is one and it implements `compression`,
and the options of the handler when there is none or it is of another shape. Hence, for
any handler (one with default `true` included), a per-request `CompressionOptions` with
`enableCompression = false` makes `Intercept` forward the request untouched; for any
handler (one with default `false` included), a per-request option with
`enableCompression = true` makes `Intercept` forward the compressed request when the body
reads to EOF and compresses; and so does `NewCompressionHandler()` when the request
carries no usable per-request option. -/
theorem option_resolution {W σ : Type} (gz : GzipWriter W) (c : CompressionHandler)
    (pipeline : Pipeline σ) (s : σ) (middlewareIndex : Int) (req : Request) :
    compressKey.Key = "CompressionHandler" ∧
      (∀ v, req.ctx compressKey = some (.implementing v) → resolveOption c req = v) ∧
      (req.ctx compressKey = none ∨ req.ctx compressKey = some .unrelated →
        resolveOption c req = .ofOptions c.options) ∧
      (req.ctx compressKey = some (.implementing (.ofOptions (NewCompressionOptions false))) →
        (Intercept gz c pipeline s middlewareIndex req).calls =
          [⟨req, middlewareIndex, (pipeline.Next s req middlewareIndex).resp,
            (pipeline.Next s req middlewareIndex).err⟩]) ∧
      (req.ctx compressKey = some (.implementing (.ofOptions (NewCompressionOptions true))) →
        ∀ b z size, req.Body = some b → b.failure = none →
          compressReqBody gz b.pending = .ok (z, size) →
          ∃ rest, (Intercept gz c pipeline s middlewareIndex req).calls =
            ⟨compressedRequest req z size, middlewareIndex,
              (firstNext pipeline s middlewareIndex req z size).resp,
              (firstNext pipeline s middlewareIndex req z size).err⟩ :: rest) ∧
      (req.ctx compressKey = none ∨ req.ctx compressKey = some .unrelated →
        ∀ b z size, req.Body = some b → b.failure = none →
          compressReqBody gz b.pending = .ok (z, size) →
          ∃ rest, (Intercept gz NewCompressionHandler pipeline s middlewareIndex req).calls =
            ⟨compressedRequest req z size, middlewareIndex,
              (firstNext pipeline s middlewareIndex req z size).resp,
              (firstNext pipeline s middlewareIndex req z size).err⟩ :: rest) := by
  refine ⟨rfl, fun v h => resolveOption_of_implementing c req h,
    fun h => resolveOption_of_fallback c req h, fun h => ?_, fun h b z size hbody hread hz => ?_,
    fun h b z size hbody hread hz => ?_⟩
  · rw [intercept_disabled gz c pipeline s middlewareIndex req
      (by rw [resolveOption_of_implementing c req h]; rfl)]
    rfl
  · exact intercept_first_call gz c pipeline s middlewareIndex req
      (by rw [resolveOption_of_implementing c req h]; rfl) hbody hread hz
  · exact intercept_first_call gz NewCompressionHandler pipeline s middlewareIndex req
      (by rw [resolveOption_of_fallback NewCompressionHandler req h]; rfl) hbody hread hz

theorem option_resolution_witness :
    resolveOption (NewCompressionHandlerWithOptions (NewCompressionOptions true))
        (post none 0 noHeaders (some (.implementing (.ofCustom (some false))))) = .ofCustom (some false) ∧
      resolveOption (NewCompressionHandlerWithOptions (NewCompressionOptions false))
        (post none 0 noHeaders (some .unrelated)) = .ofOptions (NewCompressionOptions false) ∧
      (Intercept storedGzip (NewCompressionHandlerWithOptions (NewCompressionOptions true))
          scripted [status 200] 3 (helloRequestWith false)).calls =
        [⟨helloRequestWith false, 3, some ⟨200, []⟩, none⟩] ∧
      (∃ rest, (Intercept storedGzip
          (NewCompressionHandlerWithOptions (NewCompressionOptions false)) scripted
          [status 200] 3 (helloRequestWith true)).calls =
        ⟨compressedRequest (helloRequestWith true) (NopCloser (gzipMagic ++ helloWorld)) 13, 3,
          some ⟨200, []⟩, none⟩ :: rest) ∧
      (∃ rest, (Intercept storedGzip NewCompressionHandler scripted [status 200] 3
          helloRequest).calls =
        ⟨compressedRequest helloRequest (NopCloser (gzipMagic ++ helloWorld)) 13, 3,
          some ⟨200, []⟩, none⟩ :: rest) :=
  ⟨(option_resolution storedGzip (NewCompressionHandlerWithOptions (NewCompressionOptions true))
      scripted [] 0 (post none 0 noHeaders (some (.implementing (.ofCustom (some false)))))).2.1
      (.ofCustom (some false)) rfl,
    (option_resolution storedGzip
      (NewCompressionHandlerWithOptions (NewCompressionOptions false)) scripted [] 0
      (post none 0 noHeaders (some .unrelated))).2.2.1 (Or.inr rfl),
    (option_resolution storedGzip (NewCompressionHandlerWithOptions (NewCompressionOptions true))
      scripted [status 200] 3 (helloRequestWith false)).2.2.2.1 rfl,
    (option_resolution storedGzip
      (NewCompressionHandlerWithOptions (NewCompressionOptions false)) scripted [status 200] 3
      (helloRequestWith true)).2.2.2.2.1 rfl (NopCloser helloWorld)
      (NopCloser (gzipMagic ++ helloWorld)) 13 rfl rfl rfl,
    (option_resolution storedGzip NewCompressionHandler scripted [status 200] 3
      helloRequest).2.2.2.2.2 (Or.inl rfl) (NopCloser helloWorld)
      (NopCloser (gzipMagic ++ helloWorld)) 13 rfl rfl rfl⟩

end Kiota.Nethttp
